import Mathlib

/-!
A shallow embedding of `main.py` of the global-entry-bot repository.

External HTTP services are modelled by a `World` record of oracles giving each
call its response.  Observable effects of a run (console prints, posting
calls, log lines, queries issued) are threaded through an explicit `Effects`
record, and control flow (normal return, `sys.exit(1)`, a raised Python
exception) by a `Status` value.  Machine dates are plain `Nat` fields; the
two `strftime`/`strptime` formats the program uses are embedded directly.
-/

namespace GEB

/-- Constant `HOME_ZIP` of `main.py`. -/
def HOME_ZIP : Nat := 63021

/-- Constant `MAX_DISTANCE_MILES` of `main.py`. -/
def MAX_DISTANCE_MILES : Int := 250

/-- Constant `DELTA` of `main.py` (weeks of look-ahead; only used to build the
query URL, which the `World` oracle abstracts). -/
def DELTA : Nat := 26

/-- Constant `LOCATIONS` of `main.py`: pairs of display name and location
code. -/
def LOCATIONS : List (String × Nat) := [("PIA", 11002), ("STL", 12021)]

/-- A parsed `YYYY-MM-DDTHH:MM` timestamp, the only datetime shape the
program parses (via `datetime.strptime` with `TTP_TIME_FORMAT`). -/
structure PyDateTime where
  year : Nat
  month : Nat
  day : Nat
  hour : Nat
  minute : Nat
deriving DecidableEq, Repr

/-- Gregorian leap-year rule, as used by Python `datetime`. -/
def isLeap (y : Nat) : Bool :=
  (y % 4 == 0 && y % 100 != 0) || y % 400 == 0

/-- Days in month `m` (1..12) of a (leap or common) year. -/
def daysInMonth (m : Nat) (leap : Bool) : Nat :=
  match m with
  | 1 => 31
  | 2 => if leap then 29 else 28
  | 3 => 31
  | 4 => 30
  | 5 => 31
  | 6 => 30
  | 7 => 31
  | 8 => 31
  | 9 => 30
  | 10 => 31
  | 11 => 30
  | 12 => 31
  | _ => 0

/-- Days in the months before month `m` of the year. -/
def daysBeforeMonth (m : Nat) (leap : Bool) : Nat :=
  (List.range (m - 1)).foldl (fun acc i => acc + daysInMonth (i + 1) leap) 0

/-- Day number of a proleptic Gregorian date, with 0001-01-01 as day 1 (a
Monday), matching the calendar arithmetic behind Python `datetime`. -/
def rataDie (y m d : Nat) : Nat :=
  365 * (y - 1) + (y - 1) / 4 - (y - 1) / 100 + (y - 1) / 400
    + daysBeforeMonth m (isLeap y) + d

/-- Full weekday name of a date, as `strftime` directive `%A` renders it. -/
def weekdayName (y m d : Nat) : String :=
  match rataDie y m d % 7 with
  | 1 => "Monday"
  | 2 => "Tuesday"
  | 3 => "Wednesday"
  | 4 => "Thursday"
  | 5 => "Friday"
  | 6 => "Saturday"
  | _ => "Sunday"

/-- Full month name, as `strftime` directive `%B` renders it. -/
def monthName (m : Nat) : String :=
  match m with
  | 1 => "January"
  | 2 => "February"
  | 3 => "March"
  | 4 => "April"
  | 5 => "May"
  | 6 => "June"
  | 7 => "July"
  | 8 => "August"
  | 9 => "September"
  | 10 => "October"
  | 11 => "November"
  | 12 => "December"
  | _ => ""

/-- Two-digit zero padding, as `strftime` directives `%d`, `%I`, `%M` use. -/
def pad2 (n : Nat) : String :=
  if n < 10 then "0" ++ toString n else toString n

/-- Rendering of a timestamp by `strftime` with `MESSAGE_TIME_FORMAT`, the
format string given as percent-A comma, percent-B, percent-d comma, percent-Y,
literal " at ", percent-I colon percent-M, and percent-p. -/
def strftimeMessage (t : PyDateTime) : String :=
  weekdayName t.year t.month t.day ++ ", " ++ monthName t.month ++ " "
    ++ pad2 t.day ++ ", " ++ toString t.year ++ " at "
    ++ pad2 (if t.hour % 12 == 0 then 12 else t.hour % 12) ++ ":" ++ pad2 t.minute
    ++ " " ++ (if t.hour < 12 then "AM" else "PM")

/-- Value of a decimal digit character. -/
def digitVal (c : Char) : Option Nat :=
  if c.isDigit then some (c.toNat - 48) else none

/-- Two decimal digits. -/
def parse2 (a b : Char) : Option Nat :=
  match digitVal a, digitVal b with
  | some x, some y => some (10 * x + y)
  | _, _ => none

/-- Four decimal digits. -/
def parse4 (a b c d : Char) : Option Nat :=
  match parse2 a b, parse2 c d with
  | some x, some y => some (100 * x + y)
  | _, _ => none

/-- Parsing with `datetime.strptime` and `TTP_TIME_FORMAT` (year-month-day,
literal T, hour-minute); `none` models the `ValueError` raised on a malformed
timestamp. -/
def strptimeTTP (s : String) : Option PyDateTime :=
  match s.toList with
  | [y1, y2, y3, y4, s1, m1, m2, s2, d1, d2, s3, h1, h2, s4, n1, n2] =>
    if s1 = '-' ∧ s2 = '-' ∧ s3 = 'T' ∧ s4 = ':' then
      match parse4 y1 y2 y3 y4, parse2 m1 m2, parse2 d1 d2, parse2 h1 h2, parse2 n1 n2 with
      | some y, some mo, some da, some h, some n =>
        if 1 ≤ mo ∧ mo ≤ 12 ∧ 1 ≤ da ∧ da ≤ daysInMonth mo (isLeap y) ∧ h < 24 ∧ n < 60
        then some ⟨y, mo, da, h, n⟩
        else none
      | _, _, _, _, _ => none
    else none
  | _ => none

/-- Constant `NOTIF_MESSAGE` of `main.py`, applied to its two format
arguments. -/
def NOTIF_MESSAGE (location date : String) : String :=
  "New appointment slot open at " ++ location ++ ": " ++ date

/-- One element of the `message` payload of a `twitter.TwitterError`: the
code the program reads from it. -/
structure TwitterErrEntry where
  code : Int
deriving DecidableEq, Repr

/-- Outcome of `api.PostUpdate`: success, or a `TwitterError` carrying a list
of error entries. -/
inductive PostOutcome where
  | success
  | rejected (message : List TwitterErrEntry)
deriving DecidableEq, Repr

/-- Function `tweet` of `main.py`, lines 32 to 41, given the posting service
outcome `o` for the message.  A `.ok logs` value is a normal return together
with the log lines written; `.error es` models the re-raised `TwitterError`
reaching the caller. -/
def tweet (o : PostOutcome) : Except (List TwitterErrEntry) (List String) :=
  match o with
  | .success => .ok ["Tweet Posted"]
  | .rejected es =>
    if es.length = 1 ∧ es.head?.map TwitterErrEntry.code = some 187 then
      .ok ["Tweet rejected (duplicate status)"]
    else
      .error es

/-- Run status: `.ok` is a normal return, `.exit1` is `sys.exit(1)`, and
`.exn s` is an uncaught Python exception named `s` propagating out. -/
inductive Status where
  | ok
  | exit1
  | exn (exnName : String)
deriving DecidableEq, Repr

/-- Observable effects accumulated by a run: console prints, posting calls
made (the argument of each `tweet` call), log lines, the location codes the
scheduler API was queried for, the zip codes the distance API was queried
for, and whether the directory API was queried. -/
structure Effects where
  printed : List String
  tweets : List String
  logs : List String
  schedQueries : List Nat
  distQueries : List String
  dirQueried : Bool
deriving DecidableEq, Repr

/-- The empty effect record a process run starts from. -/
def Effects.start : Effects := ⟨[], [], [], [], [], false⟩

/-- One JSON object of the directory API response.  `shortName` is
`none` when the key is absent from the object, `some none` when its value is
JSON null, and `some (some s)` when it is the string `s`; both latter shapes
are falsy in Python exactly when the string is empty or the value null. -/
structure DirEntry where
  countryCode : String
  shortName : Option (Option String)
  name : String
  id : Nat
  postalCode : String
deriving DecidableEq, Repr

/-- One appointment object of the scheduler API response: the two fields the
program reads. -/
structure SlotRecord where
  active : Int
  timestamp : String
deriving DecidableEq, Repr

/-- Responses of the four external services for one run: the scheduler
response per location code (`.error` is a `requests.ConnectionError`), the
directory response, the distance response per zip pair (`.ok none` is a
response without a distance key), and the posting service outcome per
message. -/
structure World where
  scheduler : Nat → Except Unit (List SlotRecord)
  directory : Except Unit (List DirEntry)
  distance : Nat → String → Except Unit (Option Int)
  twitter : String → PostOutcome

/-- Python value returned by `calculate_distance`: the numeric distance or
the literal False. -/
inductive PyDistRet where
  | int (d : Int)
  | bool (b : Bool)
deriving DecidableEq, Repr

/-- Python truthiness of a `calculate_distance` return value: False and 0
are falsy, any other number truthy. -/
def PyDistRet.truthy : PyDistRet → Bool
  | .int d => d != 0
  | .bool b => b

/-- Function `calculate_distance` of `main.py`, lines 43 to 58.  Queries the
distance service; on connection failure logs and exits the process; on a
response carrying a distance below `max_distance` returns that distance, and
in every other case returns False. -/
def calculate_distance (w : World) (home_zip : Nat) (location_zip : String)
    (max_distance : Int) (e : Effects) : Effects × Status × PyDistRet :=
  let e := { e with distQueries := e.distQueries ++ [location_zip] }
  match w.distance home_zip location_zip with
  | .error _ =>
    ({ e with logs := e.logs ++ ["Could not connect to distance API"] }, .exit1, .bool false)
  | .ok results =>
    match results with
    | some distance =>
      if distance < max_distance then (e, .ok, .int distance)
      else (e, .ok, .bool false)
    | none =>
      ({ e with logs := e.logs ++ ["ZipCode " ++ location_zip ++ " not found"] },
        .ok, .bool false)

/-- Function `is_location_nearby` of `main.py`, lines 81 to 84.  The Python
function body has no return statement, so its value is always None, modelled
as `(none : Option Unit)`; the truthy distance only triggers a log line. -/
def is_location_nearby (w : World) (name : String) (zipcode : String) (e : Effects) :
    Effects × Status × Option Unit :=
  match calculate_distance w HOME_ZIP zipcode MAX_DISTANCE_MILES e with
  | (e, .ok, distance) =>
    if distance.truthy then
      ({ e with logs := e.logs ++ ["*Nearby airport " ++ name ++ " is in " ++ zipcode] },
        .ok, none)
    else (e, .ok, none)
  | (e, st, _) => (e, st, none)

/-- The condition tested at line 83 of `main.py` (and again at line 134):
whether the candidate location qualifies as nearby, i.e. whether the value
`calculate_distance` computes for it is truthy. -/
def locationQualifiesNearby (w : World) (zipcode : String) (e : Effects) : Bool :=
  (calculate_distance w HOME_ZIP zipcode MAX_DISTANCE_MILES e).2.2.truthy

/-- The display-name computation of `main.py` lines 70 to 72, applied to a
present `shortName` value: the short name if truthy, else the long name. -/
def entryDisplayName (shortName : Option String) (long : String) : String :=
  match shortName with
  | none => long
  | some s => if s = "" then long else s

/-- The `for result in results` loop of `get_full_location_list`, lines 67
to 78, threading the list built so far.  Reading a missing `shortName` key
raises a `KeyError`. -/
def locLoop : List DirEntry → Effects → List (Nat × String × String) →
    Effects × Status × List (Nat × String × String)
  | [], e, acc => (e, .ok, acc)
  | r :: rest, e, acc =>
    if r.countryCode == "US" then
      match r.shortName with
      | none => (e, .exn "KeyError", acc)
      | some sn =>
        let name := entryDisplayName sn r.name
        let zipcode := r.postalCode.take 5
        let e := { e with logs := e.logs ++ ["Found " ++ name ++ " in " ++ zipcode] }
        locLoop rest e (acc ++ [(r.id, name, zipcode)])
    else
      locLoop rest { e with logs := e.logs ++ ["Outside the US"] } acc

/-- Function `get_full_location_list` of `main.py`, lines 60 to 79.  Queries
the directory API (on connection failure logs the same scheduler-API text the
source uses there and exits) and folds `locLoop` over the response. -/
def get_full_location_list (w : World) (e : Effects) :
    Effects × Status × List (Nat × String × String) :=
  let e := { e with dirQueried := true }
  match w.directory with
  | .error _ =>
    ({ e with logs := e.logs ++ ["Could not connect to scheduler API"] }, .exit1, [])
  | .ok results => locLoop results e []

/-- The `for result in results` loop of `check_for_openings`, lines 106 to
118: find the first record with positive active count, format and emit its
message, and return at once; falling off the loop logs the no-openings
line. -/
def processResults (w : World) (location_name : String) (tm : Bool) :
    List SlotRecord → Effects → Effects × Status
  | [], e => ({ e with logs := e.logs ++ ["No openings for " ++ location_name] }, .ok)
  | r :: rest, e =>
    if r.active > 0 then
      let e := { e with logs := e.logs ++ ["Opening found for " ++ location_name] }
      match strptimeTTP r.timestamp with
      | none => (e, .exn "ValueError")
      | some ts =>
        let message := NOTIF_MESSAGE location_name (strftimeMessage ts)
        if tm then
          ({ e with printed := e.printed ++ [message] }, .ok)
        else
          let e := { e with logs := e.logs ++ ["Tweeting: " ++ message],
                            tweets := e.tweets ++ [message] }
          match tweet (w.twitter message) with
          | .ok ls => ({ e with logs := e.logs ++ ls }, .ok)
          | .error _ => (e, .exn "TwitterError")
    else processResults w location_name tm rest e

/-- Function `check_for_openings` of `main.py`, lines 92 to 120.  The time
window bounds only feed the query URL, which the `World` oracle abstracts, so
they are not carried here. -/
def check_for_openings (w : World) (location_name : String) (location_code : Nat)
    (test_mode : Bool) (e : Effects) : Effects × Status :=
  let e := { e with schedQueries := e.schedQueries ++ [location_code] }
  match w.scheduler location_code with
  | .error _ =>
    ({ e with logs := e.logs ++ ["Could not connect to scheduler API"] }, .exit1)
  | .ok results => processResults w location_name test_mode results e

/-- The first loop of `main`, lines 129 to 130: check each fixed location in
order, stopping at the first abnormal status. -/
def mainLoop1 (w : World) (tm : Bool) : List (String × Nat) → Effects → Effects × Status
  | [], e => (e, .ok)
  | (location_name, location_code) :: rest, e =>
    match check_for_openings w location_name location_code tm e with
    | (e, .ok) => mainLoop1 w tm rest e
    | (e, st) => (e, st)

/-- The second loop of `main`, lines 133 to 135.  `location_name` is the
loop variable left over from the first loop (the source passes it, not the
nearby location's own `name`); when no fixed location bound it, entering the
branch would raise a `NameError`. -/
def mainLoop2 (w : World) (tm : Bool) (location_name : Option String) :
    List (Nat × String × String) → Effects → Effects × Status
  | [], e => (e, .ok)
  | (location_id, name, zipcode) :: rest, e =>
    match is_location_nearby w name zipcode e with
    | (e, .ok, ret) =>
      if ret.isSome then
        match location_name with
        | none => (e, .exn "NameError")
        | some ln =>
          match check_for_openings w ln location_id tm e with
          | (e, .ok) => mainLoop2 w tm location_name rest e
          | (e, st) => (e, st)
      else mainLoop2 w tm location_name rest e
    | (e, st, _) => (e, st)

/-- The effects in force when the first loop starts: `main` has logged its
opening line. -/
def mainStartEffects : Effects := { Effects.start with logs := ["Checking main locations"] }

/-- Function `main` of `main.py`, lines 122 to 135, parameterised by the
fixed location list (the source reads the global `LOCATIONS`) and the value
of the `--test` flag.  The `--verbose` flag only configures log visibility;
logs are recorded here unconditionally. -/
def main (w : World) (locations : List (String × Nat)) (test : Bool) : Effects × Status :=
  match mainLoop1 w test locations mainStartEffects with
  | (e, .ok) =>
    let e := { e with logs := e.logs ++ ["Find locations within "
        ++ toString MAX_DISTANCE_MILES ++ " miles of " ++ toString HOME_ZIP] }
    match get_full_location_list w e with
    | (e, .ok, locs) =>
      let e := { e with logs := e.logs ++ ["Found " ++ toString locs.length ++ " locations"] }
      mainLoop2 w test ((locations.getLast?).map Prod.fst) locs e
    | (e, st, _) => (e, st)
  | (e, st) => (e, st)

/-- Refinement-side description (from the spec wording) of the triple the
location filter keeps for a US entry whose short-name field is present: the
identifier, the display name with long-name fallback, and the first five
characters of the postal code. -/
def usTriple (r : DirEntry) : Nat × String × String :=
  (r.id, entryDisplayName (r.shortName.getD none) r.name, r.postalCode.take 5)

/-! Concrete worlds used to instantiate the theorems below on closed inputs. -/

/-- World where every scheduler response holds one active record for
2024-07-01 09:00 and the directory is empty. -/
def wC8 : World :=
  { scheduler := fun _ => .ok [{ active := 1, timestamp := "2024-07-01T09:00" }],
    directory := .ok [],
    distance := fun _ _ => .ok none,
    twitter := fun _ => .success }

/-- A US directory entry with zip 63021 and a nonempty short name. -/
def entryC1 : DirEntry :=
  { countryCode := "US", shortName := some (some "AAA"), name := "Alpha",
    id := 7777, postalCode := "630211234" }

/-- World with no openings anywhere, a single candidate location at zip
63021, and every distance reported as 100 miles. -/
def wC1 : World :=
  { scheduler := fun _ => .ok [],
    directory := .ok [entryC1],
    distance := fun _ _ => .ok (some 100),
    twitter := fun _ => .success }

/-- World whose scheduler response is an inactive record, then an active one,
then another active one with an earlier timestamp. -/
def wC2 : World :=
  { scheduler := fun _ => .ok [{ active := 0, timestamp := "bad" },
      { active := 2, timestamp := "2024-07-01T09:00" },
      { active := 5, timestamp := "2020-01-01T00:00" }],
    directory := .ok [],
    distance := fun _ _ => .ok none,
    twitter := fun _ => .success }

/-- World whose scheduler response holds only records with nonpositive
active counts. -/
def wC3 : World :=
  { scheduler := fun _ => .ok [{ active := 0, timestamp := "2024-07-01T09:00" },
      { active := -3, timestamp := "2024-08-01T10:00" }],
    directory := .ok [],
    distance := fun _ _ => .ok none,
    twitter := fun _ => .success }

/-- World whose distance service reports every pair of zips as exactly 0
miles apart. -/
def wC5zero : World :=
  { scheduler := fun _ => .ok [],
    directory := .ok [],
    distance := fun _ _ => .ok (some 0),
    twitter := fun _ => .success }

/-- World whose distance service knows zip 63005 (150 miles) and no other
zip. -/
def wC5 : World :=
  { scheduler := fun _ => .ok [],
    directory := .ok [],
    distance := fun _ z => if z == "63005" then .ok (some 150) else .ok none,
    twitter := fun _ => .success }

/-- A US directory entry whose JSON object has no short-name key at all. -/
def entryC6absent : DirEntry :=
  { countryCode := "US", shortName := none, name := "Alpha Port",
    id := 1, postalCode := "12345" }

/-- World whose directory holds only `entryC6absent`. -/
def wC6absent : World :=
  { scheduler := fun _ => .ok [],
    directory := .ok [entryC6absent],
    distance := fun _ _ => .ok none,
    twitter := fun _ => .success }

/-- A US directory entry whose short-name key is present with an empty
string value. -/
def entryC6empty : DirEntry :=
  { countryCode := "US", shortName := some (some ""), name := "Bravo Port",
    id := 2, postalCode := "63011" }

/-- World whose directory holds only `entryC6empty`. -/
def wC6empty : World :=
  { scheduler := fun _ => .ok [],
    directory := .ok [entryC6empty],
    distance := fun _ _ => .ok none,
    twitter := fun _ => .success }

/-- World whose directory mixes two US entries around a non-US entry (the
non-US one even lacks the short-name key, which must not matter since the
branch that reads it is never reached). -/
def wC7 : World :=
  { scheduler := fun _ => .ok [],
    directory := .ok
      [{ countryCode := "US", shortName := some (some "AAA"), name := "Alpha",
         id := 10, postalCode := "630211234" },
       { countryCode := "CA", shortName := none, name := "Toronto",
         id := 11, postalCode := "M5V" },
       { countryCode := "US", shortName := some none, name := "Charlie Port",
         id := 12, postalCode := "10001" }],
    distance := fun _ _ => .ok none,
    twitter := fun _ => .success }

/-- World in which no external connection can be established at all. -/
def wC9 : World :=
  { scheduler := fun _ => .error (),
    directory := .error (),
    distance := fun _ _ => .error (),
    twitter := fun _ => .success }

/-- World whose distance service reports 0 miles for every pair of zips. -/
def wC10 : World :=
  { scheduler := fun _ => .ok [],
    directory := .ok [],
    distance := fun _ _ => .ok (some 0),
    twitter := fun _ => .success }

/-! Helper lemmas shared by the claim theorems. -/

/-- Scanning a record list whose inactive head elements precede an active
record `r` behaves exactly like scanning the singleton `[r]`: the loop skips
the inactive ones, handles `r`, and returns without looking further. -/
theorem processResults_first_active (w : World) (nm : String) (tm : Bool)
    (l1 l2 : List SlotRecord) (r : SlotRecord) (e : Effects)
    (h1 : ∀ x ∈ l1, ¬ x.active > 0) (hr : r.active > 0) :
    processResults w nm tm (l1 ++ r :: l2) e = processResults w nm tm [r] e := by
  induction l1 generalizing e with
  | nil =>
    show processResults w nm tm (r :: l2) e = processResults w nm tm [r] e
    simp only [processResults, if_pos hr]
  | cons x xs ih =>
    have hx : ¬ x.active > 0 := h1 x (List.mem_cons_self x xs)
    have hxs : ∀ y ∈ xs, ¬ y.active > 0 := fun y hy => h1 y (List.mem_cons_of_mem x hy)
    show processResults w nm tm (x :: (xs ++ r :: l2)) e = _
    simp only [processResults, if_neg hx]
    exact ih e hxs

/-- Scanning a record list with no positive active count only logs the
no-openings line and returns normally. -/
theorem processResults_no_active (w : World) (nm : String) (tm : Bool) :
    ∀ (l : List SlotRecord) (e : Effects), (∀ x ∈ l, ¬ x.active > 0) →
      processResults w nm tm l e
        = ({ e with logs := e.logs ++ ["No openings for " ++ nm] }, .ok) := by
  intro l
  induction l with
  | nil => intro e _; simp [processResults]
  | cons x xs ih =>
    intro e h
    have hx : ¬ x.active > 0 := h x (List.mem_cons_self x xs)
    have hxs : ∀ y ∈ xs, ¬ y.active > 0 := fun y hy => h y (List.mem_cons_of_mem x hy)
    show processResults w nm tm (x :: xs) e = _
    simp only [processResults, if_neg hx]
    exact ih e hxs

/-- C2: for every appointment-record sequence the scheduler returns, the
opening checker uses the first record (in service order) with a positive
active count, stops right after it, and ignores every later record, active
or not and whatever its timestamp: the whole call behaves exactly like a
call whose response is that single record. -/
theorem C2_first_active_halts (w : World) (nm : String) (code : Nat) (tm : Bool)
    (l1 l2 : List SlotRecord) (r : SlotRecord) (e : Effects)
    (hsched : w.scheduler code = .ok (l1 ++ r :: l2))
    (h1 : ∀ x ∈ l1, ¬ x.active > 0) (hr : r.active > 0) :
    check_for_openings w nm code tm e
      = processResults w nm tm [r] { e with schedQueries := e.schedQueries ++ [code] } := by
  simp only [check_for_openings, hsched]
  exact processResults_first_active w nm tm l1 l2 r _ h1 hr

/-- Witness for C2 at a concrete response: an inactive record, the active
record used, and a later active record with an earlier timestamp that is
ignored. -/
theorem C2_first_active_halts_witness :
    check_for_openings wC2 "PIA" 11002 true Effects.start
      = processResults wC2 "PIA" true [{ active := 2, timestamp := "2024-07-01T09:00" }]
          { Effects.start with schedQueries := Effects.start.schedQueries ++ [11002] } :=
  C2_first_active_halts wC2 "PIA" 11002 true
    [{ active := 0, timestamp := "bad" }]
    [{ active := 5, timestamp := "2020-01-01T00:00" }]
    { active := 2, timestamp := "2024-07-01T09:00" }
    Effects.start rfl (by decide) (by decide)

/-- C3: when no record of the scheduler response has a positive active
count, the opening checker builds no message, prints nothing, makes no
posting call, and returns normally whatever the test flag: the only effect
is the no-openings log line. -/
theorem C3_no_active_no_message (w : World) (nm : String) (code : Nat) (tm : Bool)
    (records : List SlotRecord) (e : Effects)
    (hsched : w.scheduler code = .ok records)
    (h : ∀ x ∈ records, ¬ x.active > 0) :
    check_for_openings w nm code tm e
      = ({ e with schedQueries := e.schedQueries ++ [code],
                  logs := e.logs ++ ["No openings for " ++ nm] }, .ok) := by
  simp only [check_for_openings, hsched]
  exact processResults_no_active w nm tm records _ h

/-- Witness for C3 at a concrete response with active counts 0 and -3, in
test mode off, where printed and tweets stay empty. -/
theorem C3_no_active_no_message_witness :
    check_for_openings wC3 "STL" 12021 false Effects.start
      = ({ Effects.start with schedQueries := Effects.start.schedQueries ++ [12021],
                              logs := Effects.start.logs ++ ["No openings for STL"] }, .ok) :=
  C3_no_active_no_message wC3 "STL" 12021 false
    [{ active := 0, timestamp := "2024-07-01T09:00" },
     { active := -3, timestamp := "2024-08-01T10:00" }]
    Effects.start rfl (by decide)

/-- C4: the notifier returns without failure exactly when the posting
service succeeds or rejects the post with a single-element error payload
carrying code 187; that benign rejection is logged as a duplicate status,
and every other rejection (code 187 among two or more entries, or any other
code) propagates as a failure. -/
theorem C4_duplicate_rejection_benign :
    (∀ o : PostOutcome, (tweet o).isOk = true ↔
        o = PostOutcome.success ∨ o = PostOutcome.rejected [⟨187⟩]) ∧
    tweet (PostOutcome.rejected [⟨187⟩]) = .ok ["Tweet rejected (duplicate status)"] := by
  constructor
  · intro o
    cases o with
    | success => simp [tweet, Except.isOk, Except.toBool]
    | rejected es =>
      by_cases hC : es.length = 1 ∧ es.head?.map TwitterErrEntry.code = some 187
      · rw [show tweet (.rejected es) = .ok ["Tweet rejected (duplicate status)"] from by
          simp only [tweet] ; exact if_pos hC]
        obtain ⟨a, ha⟩ := List.length_eq_one.mp hC.1
        have hcode : a.code = 187 := by
          have := hC.2
          rw [ha] at this
          simpa using this
        have : a = (⟨187⟩ : TwitterErrEntry) := by cases a; simpa using hcode
        simp [Except.isOk, Except.toBool, ha, this]
      · rw [show tweet (.rejected es) = .error es from by
          simp only [tweet] ; exact if_neg hC]
        constructor
        · intro hfalse; simp [Except.isOk, Except.toBool] at hfalse
        · rintro (h | h)
          · exact absurd h (by simp)
          · have hes : es = [⟨187⟩] := by simpa using h
            exact absurd (by rw [hes]; exact ⟨rfl, rfl⟩) hC
  · rfl

/-- Step of the directory loop on a US entry whose short-name key is
present. -/
theorem locLoop_cons_us (r : DirEntry) (rest : List DirEntry) (e : Effects)
    (acc : List (Nat × String × String)) (v : Option String)
    (hus : r.countryCode = "US") (hv : r.shortName = some v) :
    locLoop (r :: rest) e acc
      = locLoop rest
          { e with logs := e.logs ++ ["Found " ++ entryDisplayName v r.name
              ++ " in " ++ r.postalCode.take 5] }
          (acc ++ [(r.id, entryDisplayName v r.name, r.postalCode.take 5)]) := by
  simp [locLoop, hus, hv]

/-- Step of the directory loop on a US entry whose short-name key is absent:
the key lookup raises and the loop stops with the list built so far. -/
theorem locLoop_cons_us_missing (r : DirEntry) (rest : List DirEntry) (e : Effects)
    (acc : List (Nat × String × String))
    (hus : r.countryCode = "US") (hv : r.shortName = none) :
    locLoop (r :: rest) e acc = (e, .exn "KeyError", acc) := by
  simp [locLoop, hus, hv]

/-- Step of the directory loop on a non-US entry: only a log line, nothing
kept. -/
theorem locLoop_cons_nonus (r : DirEntry) (rest : List DirEntry) (e : Effects)
    (acc : List (Nat × String × String)) (hus : ¬ r.countryCode = "US") :
    locLoop (r :: rest) e acc
      = locLoop rest { e with logs := e.logs ++ ["Outside the US"] } acc := by
  simp [locLoop, hus]

/-- The directory loop only ever appends to the list built so far. -/
theorem locLoop_acc (l : List DirEntry) :
    ∀ (e : Effects) (acc : List (Nat × String × String)),
      ∃ t, (locLoop l e acc).2.2 = acc ++ t := by
  induction l with
  | nil => intro e acc; exact ⟨[], by simp [locLoop]⟩
  | cons r rest ih =>
    intro e acc
    by_cases hus : r.countryCode = "US"
    · cases hv : r.shortName with
      | none => exact ⟨[], by rw [locLoop_cons_us_missing r rest e acc hus hv]; simp⟩
      | some v =>
        rw [locLoop_cons_us r rest e acc v hus hv]
        obtain ⟨t, ht⟩ := ih _ (acc ++ [(r.id, entryDisplayName v r.name, r.postalCode.take 5)])
        exact ⟨(r.id, entryDisplayName v r.name, r.postalCode.take 5) :: t, by
          rw [ht, List.append_assoc]; rfl⟩
    · rw [locLoop_cons_nonus r rest e acc hus]
      exact ih _ acc

/-- When every US entry of the remaining list carries its short-name key,
the directory loop returns normally and appends exactly the `usTriple` of
each US entry, in list order. -/
theorem locLoop_ok (l : List DirEntry) :
    ∀ (e : Effects) (acc : List (Nat × String × String)),
      (∀ r ∈ l, r.countryCode = "US" → r.shortName.isSome) →
      (locLoop l e acc).2.1 = Status.ok ∧
      (locLoop l e acc).2.2
        = acc ++ (l.filter (fun r => r.countryCode == "US")).map usTriple := by
  induction l with
  | nil => intro e acc _; simp [locLoop]
  | cons r rest ih =>
    intro e acc h
    have hrest : ∀ x ∈ rest, x.countryCode = "US" → x.shortName.isSome :=
      fun x hx => h x (List.mem_cons_of_mem r hx)
    by_cases hus : r.countryCode = "US"
    · have hsome : r.shortName.isSome := h r (List.mem_cons_self r rest) hus
      obtain ⟨v, hv⟩ := Option.isSome_iff_exists.mp hsome
      rw [locLoop_cons_us r rest e acc v hus hv]
      obtain ⟨h1, h2⟩ := ih _ (acc ++ [(r.id, entryDisplayName v r.name, r.postalCode.take 5)]) hrest
      refine ⟨h1, ?_⟩
      rw [h2, List.append_assoc]
      have htr : usTriple r = (r.id, entryDisplayName v r.name, r.postalCode.take 5) := by
        simp [usTriple, hv]
      have hb : (r.countryCode == "US") = true := by simp [hus]
      simp [List.filter_cons, hb, htr]
    · rw [locLoop_cons_nonus r rest e acc hus]
      obtain ⟨h1, h2⟩ := ih _ acc hrest
      refine ⟨h1, ?_⟩
      rw [h2]
      have hb : (r.countryCode == "US") = false := by simp [hus]
      simp [List.filter_cons, hb]

/-- A directory loop started on a singleton kept list leaves that element at
the head of the output. -/
theorem locLoop_head (rest : List DirEntry) (E : Effects) (x : Nat × String × String) :
    (locLoop rest E [x]).2.2.head? = some x := by
  obtain ⟨t, ht⟩ := locLoop_acc rest E [x]
  rw [ht]
  rfl

/-- Counterexample to C5 as stated: a distance-service response carrying the
distance field with value 0, which is strictly below the 250-mile maximum,
does NOT make the location qualify as nearby, because the returned distance
0 is falsy in the `if distance:` test. -/
theorem C5_distance_zero_counterexample :
    wC5zero.distance HOME_ZIP "63021" = .ok (some 0) ∧
    (0 : Int) < MAX_DISTANCE_MILES ∧
    locationQualifiesNearby wC5zero "63021" Effects.start = false :=
  ⟨rfl, by decide, by decide⟩

/-- C5 amended: a response with a distance field qualifies the location as
nearby exactly when the distance is strictly below the maximum AND nonzero;
a response without the distance field leaves the location not nearby, logs
the unknown zip, and raises no error (status stays normal). -/
theorem C5_distance_filter (w : World) (zipcode : String) (e : Effects) :
    (∀ d : Int, w.distance HOME_ZIP zipcode = .ok (some d) →
      (locationQualifiesNearby w zipcode e = true ↔ d < MAX_DISTANCE_MILES ∧ d ≠ 0)) ∧
    (w.distance HOME_ZIP zipcode = .ok none →
      locationQualifiesNearby w zipcode e = false ∧
      calculate_distance w HOME_ZIP zipcode MAX_DISTANCE_MILES e
        = ({ e with distQueries := e.distQueries ++ [zipcode],
                    logs := e.logs ++ ["ZipCode " ++ zipcode ++ " not found"] },
            .ok, .bool false)) := by
  constructor
  · intro d hd
    by_cases hlt : d < MAX_DISTANCE_MILES
    · simp [locationQualifiesNearby, calculate_distance, hd, hlt, PyDistRet.truthy]
    · simp [locationQualifiesNearby, calculate_distance, hd, hlt, PyDistRet.truthy]
  · intro hd
    constructor
    · simp [locationQualifiesNearby, calculate_distance, hd, PyDistRet.truthy]
    · simp [calculate_distance, hd]

/-- Witness for C5 amended: zip 63005 at 150 miles qualifies; a zip the
distance dataset does not know does not. -/
theorem C5_distance_filter_witness :
    locationQualifiesNearby wC5 "63005" Effects.start = true ∧
    locationQualifiesNearby wC5 "99999" Effects.start = false :=
  ⟨((C5_distance_filter wC5 "63005" Effects.start).1 150 rfl).mpr (by decide),
   ((C5_distance_filter wC5 "99999" Effects.start).2 rfl).1⟩

/-- Counterexample to C6 as stated: on a US entry whose short-name key is
absent from the directory object, the filter does not fall back to the long
name; the key lookup raises and no triple is produced at all. -/
theorem C6_absent_short_name_counterexample :
    get_full_location_list wC6absent Effects.start
      = ({ Effects.start with dirQueried := true }, .exn "KeyError", []) := by
  rw [show get_full_location_list wC6absent Effects.start
        = locLoop [entryC6absent] { Effects.start with dirQueried := true } [] from rfl]
  rw [locLoop_cons_us_missing entryC6absent [] _ [] rfl rfl]

/-- C6 amended: for a US directory entry whose short-name key is present but
holds an empty string or null, the triple kept for it carries the long name
as display name (the entry here heads the response, so its triple heads the
output). -/
theorem C6_empty_short_name_fallback (w : World) (r : DirEntry) (rest : List DirEntry)
    (e : Effects)
    (hdir : w.directory = .ok (r :: rest))
    (hus : r.countryCode = "US")
    (hsn : r.shortName = some none ∨ r.shortName = some (some "")) :
    (get_full_location_list w e).2.2.head? = some (r.id, r.name, r.postalCode.take 5) := by
  have hstep : ∀ v, r.shortName = some v → entryDisplayName v r.name = r.name →
      (get_full_location_list w e).2.2.head? = some (r.id, r.name, r.postalCode.take 5) := by
    intro v hv hdisp
    simp only [get_full_location_list, hdir]
    rw [locLoop_cons_us r rest _ [] v hus hv, hdisp]
    simpa using locLoop_head rest _ (r.id, r.name, r.postalCode.take 5)
  rcases hsn with hv | hv
  · exact hstep none hv rfl
  · exact hstep (some "") hv (by simp [entryDisplayName])

/-- Witness for C6 amended: a US entry with an empty short name heads the
directory; its kept display name is the long name Bravo Port. -/
theorem C6_empty_short_name_fallback_witness :
    (get_full_location_list wC6empty Effects.start).2.2.head?
      = some (entryC6empty.id, entryC6empty.name, entryC6empty.postalCode.take 5) :=
  C6_empty_short_name_fallback wC6empty entryC6empty [] Effects.start rfl rfl (Or.inr rfl)

/-- C7: for a directory response whose US entries all carry their short-name
key, the filter returns normally and its output is exactly one triple per US
entry, in response order, with every non-US entry excluded whatever its
other fields. -/
theorem C7_us_filter_order (w : World) (entries : List DirEntry) (e : Effects)
    (hdir : w.directory = .ok entries)
    (hsn : ∀ r ∈ entries, r.countryCode = "US" → r.shortName.isSome) :
    (get_full_location_list w e).2.1 = Status.ok ∧
    (get_full_location_list w e).2.2
      = (entries.filter (fun r => r.countryCode == "US")).map usTriple := by
  simp only [get_full_location_list, hdir]
  have h := locLoop_ok entries { e with dirQueried := true } [] hsn
  exact ⟨h.1, by rw [h.2]; simp⟩

/-- Witness for C7: two US entries around a non-US entry (itself lacking the
short-name key) yield exactly the two US triples, in order. -/
theorem C7_us_filter_order_witness :
    (get_full_location_list wC7 Effects.start).2.1 = Status.ok ∧
    (get_full_location_list wC7 Effects.start).2.2
      = [(10, "AAA", "63021"), (12, "Charlie Port", "10001")] := by
  have h := C7_us_filter_order wC7
    [{ countryCode := "US", shortName := some (some "AAA"), name := "Alpha",
       id := 10, postalCode := "630211234" },
     { countryCode := "CA", shortName := none, name := "Toronto",
       id := 11, postalCode := "M5V" },
     { countryCode := "US", shortName := some none, name := "Charlie Port",
       id := 12, postalCode := "10001" }]
    Effects.start rfl (by decide)
  exact ⟨h.1, h.2.trans (by decide)⟩

/-- C10: a distance-service response of exactly 0 miles, although strictly
below the 250-mile maximum, is returned as the falsy integer 0, so the
location does not qualify as nearby and `is_location_nearby` logs no nearby
line. -/
theorem C10_zero_distance_not_nearby (w : World) (nm zipcode : String) (e : Effects)
    (h : w.distance HOME_ZIP zipcode = .ok (some 0)) :
    (0 : Int) < MAX_DISTANCE_MILES ∧
    calculate_distance w HOME_ZIP zipcode MAX_DISTANCE_MILES e
      = ({ e with distQueries := e.distQueries ++ [zipcode] }, .ok, .int 0) ∧
    PyDistRet.truthy (.int 0) = false ∧
    locationQualifiesNearby w zipcode e = false ∧
    is_location_nearby w nm zipcode e
      = ({ e with distQueries := e.distQueries ++ [zipcode] }, .ok, none) := by
  have h0 : (0 : Int) < MAX_DISTANCE_MILES := by decide
  have hc : calculate_distance w HOME_ZIP zipcode MAX_DISTANCE_MILES e
      = ({ e with distQueries := e.distQueries ++ [zipcode] }, .ok, .int 0) := by
    simp [calculate_distance, h, h0]
  refine ⟨h0, hc, rfl, ?_, ?_⟩
  · simp [locationQualifiesNearby, hc, PyDistRet.truthy]
  · simp only [is_location_nearby]
    rw [hc]
    rfl

/-- Witness for C10 at zip 63021 with the distance service reporting 0. -/
theorem C10_zero_distance_not_nearby_witness :
    locationQualifiesNearby wC10 "63021" Effects.start = false ∧
    is_location_nearby wC10 "AAA" "63021" Effects.start
      = ({ Effects.start with distQueries := Effects.start.distQueries ++ ["63021"] },
          .ok, none) := by
  have h := C10_zero_distance_not_nearby wC10 "AAA" "63021" Effects.start rfl
  exact ⟨h.2.2.2.1, h.2.2.2.2⟩

/-- A distance query never touches the scheduler-query trace. -/
theorem calculate_distance_schedQueries (w : World) (hz : Nat) (z : String)
    (md : Int) (e : Effects) :
    (calculate_distance w hz z md e).1.schedQueries = e.schedQueries := by
  simp only [calculate_distance]
  cases hw : w.distance hz z with
  | error u => simp
  | ok res =>
    cases res with
    | none => simp
    | some d => by_cases hd : d < md <;> simp [hd]

/-- The value `is_location_nearby` returns is always None, and the call
never touches the scheduler-query trace. -/
theorem is_location_nearby_ret (w : World) (nm zipcode : String) (e : Effects) :
    (is_location_nearby w nm zipcode e).2.2 = none ∧
    (is_location_nearby w nm zipcode e).1.schedQueries = e.schedQueries := by
  have hc := calculate_distance_schedQueries w HOME_ZIP zipcode MAX_DISTANCE_MILES e
  rcases hcd : calculate_distance w HOME_ZIP zipcode MAX_DISTANCE_MILES e with ⟨e1, st, d⟩
  rw [hcd] at hc
  simp only [is_location_nearby]
  rw [hcd]
  cases st with
  | ok => by_cases hd : d.truthy <;> simp [hd] <;> exact hc
  | exit1 => exact ⟨rfl, hc⟩
  | exn s => exact ⟨rfl, hc⟩

/-- The nearby-location loop of `main` never queries the scheduler: the
`if` tests the None that `is_location_nearby` returns, so the branch that
would call the opening checker is unreachable. -/
theorem mainLoop2_schedQueries (w : World) (tm : Bool) (ln : Option String) :
    ∀ (locs : List (Nat × String × String)) (e : Effects),
      (mainLoop2 w tm ln locs e).1.schedQueries = e.schedQueries := by
  intro locs
  induction locs with
  | nil => intro e; simp [mainLoop2]
  | cons x rest ih =>
    intro e
    obtain ⟨id, nm, zipcode⟩ := x
    have hr := is_location_nearby_ret w nm zipcode e
    rcases hn : is_location_nearby w nm zipcode e with ⟨e1, st, ret⟩
    rw [hn] at hr
    have hret : ret = none := hr.1
    have hsq : e1.schedQueries = e.schedQueries := hr.2
    simp only [mainLoop2]
    rw [hn, hret]
    cases st with
    | ok => simpa [Option.isSome] using (ih e1).trans hsq
    | exit1 => exact hsq
    | exn s => exact hsq

/-- The record scan touches neither the directory flag nor the distance or
scheduler query traces. -/
theorem processResults_frame (w : World) (nm : String) (tm : Bool) :
    ∀ (l : List SlotRecord) (e : Effects),
      (processResults w nm tm l e).1.dirQueried = e.dirQueried ∧
      (processResults w nm tm l e).1.distQueries = e.distQueries ∧
      (processResults w nm tm l e).1.schedQueries = e.schedQueries := by
  intro l
  induction l with
  | nil => intro e; simp [processResults]
  | cons r rest ih =>
    intro e
    by_cases hr : r.active > 0
    · simp only [processResults, if_pos hr]
      cases hts : strptimeTTP r.timestamp with
      | none => simp
      | some ts =>
        cases tm with
        | true => simp
        | false =>
          cases htw : tweet (w.twitter (NOTIF_MESSAGE nm (strftimeMessage ts))) with
          | ok ls => simp [htw]
          | error es => simp [htw]
    · simp only [processResults, if_neg hr]
      exact ih e

/-- An opening check touches neither the directory flag nor the
distance-query trace. -/
theorem check_for_openings_frame (w : World) (nm : String) (code : Nat) (tm : Bool)
    (e : Effects) :
    (check_for_openings w nm code tm e).1.dirQueried = e.dirQueried ∧
    (check_for_openings w nm code tm e).1.distQueries = e.distQueries := by
  simp only [check_for_openings]
  cases hw : w.scheduler code with
  | error u => simp
  | ok results =>
    have h := processResults_frame w nm tm results
      { e with schedQueries := e.schedQueries ++ [code] }
    exact ⟨h.1, h.2.1⟩

/-- The fixed-location loop touches neither the directory flag nor the
distance-query trace. -/
theorem mainLoop1_frame (w : World) (tm : Bool) :
    ∀ (locs : List (String × Nat)) (e : Effects),
      (mainLoop1 w tm locs e).1.dirQueried = e.dirQueried ∧
      (mainLoop1 w tm locs e).1.distQueries = e.distQueries := by
  intro locs
  induction locs with
  | nil => intro e; simp [mainLoop1]
  | cons x rest ih =>
    intro e
    obtain ⟨nm, code⟩ := x
    have hcf := check_for_openings_frame w nm code tm e
    rcases hc : check_for_openings w nm code tm e with ⟨e1, st⟩
    rw [hc] at hcf
    simp only [mainLoop1]
    rw [hc]
    cases st with
    | ok =>
      have h := ih e1
      exact ⟨h.1.trans hcf.1, h.2.trans hcf.2⟩
    | exit1 => exact hcf
    | exn s => exact hcf

/-- C1 fails on the code (code bug): the second loop of `main` never invokes
the opening checker, for any world, because `is_location_nearby` has no
return statement and the `if` always tests None.  In particular, in a world
where a qualifying candidate exists (the nearby log line is emitted for it),
the scheduler is still queried only for the two fixed locations, never for
the qualifying location id 7777. -/
theorem C1_nearby_never_fed_to_checker :
    (∀ (w : World) (tm : Bool) (ln : Option String)
        (locs : List (Nat × String × String)) (e : Effects),
        (mainLoop2 w tm ln locs e).1.schedQueries = e.schedQueries) ∧
    "*Nearby airport AAA is in 63021" ∈ (main wC1 LOCATIONS true).1.logs ∧
    (main wC1 LOCATIONS true).1.schedQueries = [11002, 12021] := by
  refine ⟨fun w tm ln locs e => mainLoop2_schedQueries w tm ln locs e, ?_, ?_⟩ <;> decide

/-- C8: end to end in test mode, with the fixed list reduced to PIA/11002
and a scheduler response holding the single active record at
2024-07-01T09:00, the run prints exactly the expected sentence, makes no
posting call, and ends normally. -/
theorem C8_end_to_end_test_mode :
    (main wC8 [("PIA", 11002)] true).1.printed
      = ["New appointment slot open at PIA: Monday, July 01, 2024 at 09:00 AM"] ∧
    (main wC8 [("PIA", 11002)] true).1.tweets = [] ∧
    (main wC8 [("PIA", 11002)] true).2 = Status.ok := by
  refine ⟨?_, ?_, ?_⟩ <;> decide

/-- C9: a connection failure on any of the three read dependencies logs the
failure and exits the process with status 1 at once, with no retry (exactly
one query is traced) and no further processing; and when the fixed-location
loop ends in that exit, `main` returns it unchanged, so the directory is
never queried and no distance lookup happens: the nearby scan never runs. -/
theorem C9_conn_failure_fatal (w : World) :
    (∀ (nm : String) (code : Nat) (tm : Bool) (e : Effects),
        w.scheduler code = .error () →
        check_for_openings w nm code tm e
          = ({ e with schedQueries := e.schedQueries ++ [code],
                      logs := e.logs ++ ["Could not connect to scheduler API"] }, .exit1)) ∧
    (∀ e : Effects, w.directory = .error () →
        get_full_location_list w e
          = ({ e with dirQueried := true,
                      logs := e.logs ++ ["Could not connect to scheduler API"] },
              .exit1, [])) ∧
    (∀ (hz : Nat) (z : String) (md : Int) (e : Effects), w.distance hz z = .error () →
        calculate_distance w hz z md e
          = ({ e with distQueries := e.distQueries ++ [z],
                      logs := e.logs ++ ["Could not connect to distance API"] },
              .exit1, .bool false)) ∧
    (∀ (tm : Bool) (ln : Option String) (lid : Nat) (nm zipcode : String)
        (rest : List (Nat × String × String)) (e : Effects),
        w.distance HOME_ZIP zipcode = .error () →
        mainLoop2 w tm ln ((lid, nm, zipcode) :: rest) e
          = ({ e with distQueries := e.distQueries ++ [zipcode],
                      logs := e.logs ++ ["Could not connect to distance API"] }, .exit1)) ∧
    (∀ (locs : List (String × Nat)) (tm : Bool) (e1 : Effects),
        mainLoop1 w tm locs mainStartEffects = (e1, .exit1) →
        main w locs tm = (e1, .exit1) ∧ e1.dirQueried = false ∧ e1.distQueries = []) := by
  refine ⟨?_, ?_, ?_, ?_, ?_⟩
  · intro nm code tm e h
    simp [check_for_openings, h]
  · intro e h
    simp [get_full_location_list, h]
  · intro hz z md e h
    simp [calculate_distance, h]
  · intro tm ln lid nm zipcode rest e h
    have hc : calculate_distance w HOME_ZIP zipcode MAX_DISTANCE_MILES e
        = ({ e with distQueries := e.distQueries ++ [zipcode],
                    logs := e.logs ++ ["Could not connect to distance API"] },
            .exit1, .bool false) := by
      simp [calculate_distance, h]
    have hn : is_location_nearby w nm zipcode e
        = ({ e with distQueries := e.distQueries ++ [zipcode],
                    logs := e.logs ++ ["Could not connect to distance API"] },
            .exit1, none) := by
      simp only [is_location_nearby]
      rw [hc]
    simp only [mainLoop2]
    rw [hn]
  · intro locs tm e1 h
    have hf := mainLoop1_frame w tm locs mainStartEffects
    rw [h] at hf
    refine ⟨?_, hf.1, hf.2⟩
    simp only [main]
    rw [h]

/-- Witness for C9 in a world with no connectivity: the run exits with
status 1 after the very first scheduler query, having never queried the
directory or the distance service. -/
theorem C9_conn_failure_fatal_witness :
    main wC9 [("PIA", 11002)] true
      = ({ mainStartEffects with
            schedQueries := mainStartEffects.schedQueries ++ [11002],
            logs := mainStartEffects.logs ++ ["Could not connect to scheduler API"] },
          .exit1) ∧
    ({ mainStartEffects with
        schedQueries := mainStartEffects.schedQueries ++ [11002],
        logs := mainStartEffects.logs ++ ["Could not connect to scheduler API"] }
      : Effects).dirQueried = false ∧
    ({ mainStartEffects with
        schedQueries := mainStartEffects.schedQueries ++ [11002],
        logs := mainStartEffects.logs ++ ["Could not connect to scheduler API"] }
      : Effects).distQueries = [] :=
  (C9_conn_failure_fatal wC9).2.2.2.2 [("PIA", 11002)] true
    { mainStartEffects with
        schedQueries := mainStartEffects.schedQueries ++ [11002],
        logs := mainStartEffects.logs ++ ["Could not connect to scheduler API"] }
    (by decide)

end GEB
